import Mathlib

/-!
Verification of the realtime chat demo (`src/main.rs`).

The program keeps an in-memory log of chat messages (`AppState.messages`,
a `Vec<Message>`), fed by a Supabase realtime listener
(`start_realtime_listener`), broadcasts new messages over a tokio
broadcast channel of capacity 100 to SSE subscribers (`sse_handler`),
serves an HTML index page (`index_handler`) and accepts message
submissions (`submit_message`).

This file shallowly embeds those functions and proves or refutes the
frozen claims about them.
-/

/-- The `Message` struct of `main.rs` (lines 20-25): `id: i64`,
`text: String`, `created_at: String`. `i64` is embedded as `Int`
(no arithmetic is performed on ids, so overflow is irrelevant). -/
structure Message where
  id : Int
  text : String
  created_at : String
deriving DecidableEq, Repr

/-- The raw row payload carried by a Postgres change notification
(`insert_payload.new` in `main.rs`, a JSON object). Only the three
fields of `Message` matter to `serde_json::from_value::<Message>`;
each is `Option` to model a missing or malformed field. -/
structure RawRow where
  id : Option Int
  text : Option String
  created_at : Option String
deriving DecidableEq, Repr

/-- `serde_json::from_value::<Message>` (main.rs line 164): succeeds
iff all three required fields are present, producing the `Message`. -/
def deserializeMessage (r : RawRow) : Option Message :=
  match r.id, r.text, r.created_at with
  | some i, some t, some c => some ⟨i, t, c⟩
  | _, _, _ => none

/-- The `PostgresChangesPayload` enum delivered by the realtime channel
(main.rs lines 160-187 match on it): `Insert`, `Update` or `Delete`. -/
inductive PostgresChangesPayload where
  | insert (new : RawRow)
  | update (new : RawRow) (old : RawRow)
  | delete (old : RawRow)
deriving DecidableEq, Repr

/-- Whether a payload is the `Insert` variant (the only arm of the
`match` in the listener loop that does anything; `_ => {}` otherwise). -/
def PostgresChangesPayload.isInsert : PostgresChangesPayload → Bool
  | .insert _ => true
  | _ => false

/-- The log append performed by the listener (main.rs lines 180-181):
`messages.push(message.clone())` — an unconditional push at the end,
with no duplicate-id check and no return value. -/
def appendMessage (log : List Message) (m : Message) : List Message :=
  log ++ [m]

/-- State touched by the ingestion loop: the shared log
(`state.messages`) and the sequence of messages sent on the broadcast
channel (`state.tx.send`), in order. -/
structure IngestState where
  log : List Message
  published : List Message
deriving DecidableEq, Repr

/-- The body of the `while let Some(payload) = rx.recv().await` loop in
`start_realtime_listener` (main.rs lines 160-187): on `Insert`,
deserialize; on failure log and `continue`; on success push onto the
log, then broadcast. `Update`/`Delete` fall into `_ => {}`. -/
def processPayload (s : IngestState) (p : PostgresChangesPayload) : IngestState :=
  match p with
  | .insert raw =>
    match deserializeMessage raw with
    | some msg =>
      { log := appendMessage s.log msg, published := s.published ++ [msg] }
    | none => s
  | _ => s

/-- `start_realtime_listener` (main.rs lines 130-191) as a function of
the sequence of payloads delivered by the channel before it closes:
the loop processes each payload in order with `processPayload`, then
the function returns `Ok(())`. -/
def start_realtime_listener (s : IngestState) (feed : List PostgresChangesPayload) : IngestState :=
  feed.foldl processPayload s

/-- The messages a feed successfully yields, in arrival order: the
`Insert` payloads that deserialize. -/
def ingestedMessages (feed : List PostgresChangesPayload) : List Message :=
  feed.filterMap fun p =>
    match p with
    | .insert raw => deserializeMessage raw
    | _ => none

/-- `main` (main.rs lines 104-110) spawns `start_realtime_listener`
exactly once; if it returns an error the error is logged and the task
ends — there is no reconnect loop. Given the notification batches that
successive feed connections would deliver (separated by disconnects),
only the first batch is ever processed. -/
def main_ingestion (sessions : List (List PostgresChangesPayload)) (s : IngestState) : IngestState :=
  match sessions with
  | [] => s
  | first :: _ => start_realtime_listener s first

/-! ## Broadcast channel and SSE stream (`sse_handler`, main.rs 341-367) -/

/-- The broadcast channel capacity chosen in `main`
(main.rs line 77: `broadcast::channel::<Message>(100)`). -/
def channelCapacity : Nat := 100

/-- An item of the SSE stream produced by `sse_handler`: either a data
event carrying a message text (line 351) or an SSE comment (line 356,
emitted when `rx.recv()` returns an error, i.e. on lag or close). -/
inductive CodeItem where
  | data (payload : String)
  | comment (s : String)
deriving DecidableEq, Repr

/-- The comment item the stream emits on a `recv` error
(main.rs line 356: `.comment("keepalive")`): textually identical to the
periodic keep-alive the `Sse` wrapper sends (line 365). -/
def keepaliveComment : CodeItem := CodeItem.comment "keepalive"

/-- Tokio broadcast-receiver semantics, specialised to a subscriber
draining a channel after `sent` messages were published and it has read
up to position `pos`: while more than `C` messages are pending the
receiver is lagged — `recv` returns `Err(Lagged)` once and repositions
to the oldest retained message (`sent.length - C`); otherwise `recv`
returns the message at `pos`. `sse_handler` maps `Ok(message)` to a
data event with `message.text` and `Err(_)` to the `"keepalive"`
comment. `fuel` bounds the number of `recv` calls; the drain stops when
the queue is empty (a real subscriber would then block). -/
def drainAux : Nat → Nat → List Message → Nat → List CodeItem
  | 0, _, _, _ => []
  | fuel + 1, C, sent, pos =>
    if h : pos < sent.length then
      if sent.length - pos ≤ C then
        CodeItem.data (sent.get ⟨pos, h⟩).text :: drainAux fuel C sent (pos + 1)
      else
        keepaliveComment :: drainAux fuel C sent (sent.length - C)
    else []

/-- Everything a subscriber that read nothing while `sent` was published
observes once it starts reading, until its queue is empty. -/
def drain (C : Nat) (sent : List Message) : List CodeItem :=
  drainAux (sent.length + 1) C sent 0

/-- Modelled from the spec: the outbound item alphabet of a Stream
Session (spec 4.4) — a `Data` item, a `Gap` marker, or a `Keepalive`.
The spec requires the `Gap` marker to be a distinguished signal,
distinct from `Keepalive`. -/
inductive SpecItem where
  | data (payload : String)
  | gap
  | keepalive
deriving DecidableEq, Repr

/-- How the code's emitted items read in the spec's alphabet: an SSE
data event is a `Data` item; an SSE comment carries no payload and is
the keep-alive mechanism, so it reads as `Keepalive`. The code never
emits anything that could read as a distinguished `Gap`. -/
def specView (items : List CodeItem) : List SpecItem :=
  items.map fun i =>
    match i with
    | .data t => SpecItem.data t
    | .comment _ => SpecItem.keepalive

/-! ## Write path (`submit_message`, main.rs 317-338) -/

/-- Result of `client.execute("INSERT INTO chat_public_demo (text) VALUES ($1)", ...)`:
`Ok` with the affected row count, or a database error. -/
inductive InsertResult where
  | ok (rows : Nat)
  | err (e : String)
deriving DecidableEq, Repr

/-- What a call to `submit_message` produces: the HTTP status code it
returns, the shared log afterwards, and the texts it passed to the
database `INSERT`, in order. -/
structure SubmitResult where
  status : Nat
  log : List Message
  insertsIssued : List String
deriving DecidableEq, Repr

/-- `submit_message` (main.rs lines 317-338): issues one `INSERT` with
`form.text` exactly as received; on `Ok` logs success, on `Err` logs
the error; either way falls through to return
`StatusCode::NO_CONTENT` (204) and never touches `state.messages`. -/
def submit_message (db : String → InsertResult) (formText : String)
    (log : List Message) : SubmitResult :=
  match db formText with
  | .ok _ => { status := 204, log := log, insertsIssued := [formText] }
  | .err _ => { status := 204, log := log, insertsIssued := [formText] }

/-- The 2xx class of HTTP status codes. -/
def isSuccessStatus (code : Nat) : Bool := 200 ≤ code && code < 300

/-! ## Action trace of the listener loop (for the append-before-publish
ordering, main.rs lines 179-184) -/

/-- The two shared-state effects of one loop iteration:
`messages.push(message.clone())` and `state.tx.send(message)`. -/
inductive LoopAction where
  | appendLog (m : Message)
  | publish (m : Message)
deriving DecidableEq, Repr

/-- The effects one payload causes, in program order: a successful
insert first pushes onto the log, then broadcasts; anything else has
no effect. -/
def payloadActions (p : PostgresChangesPayload) : List LoopAction :=
  match p with
  | .insert raw =>
    match deserializeMessage raw with
    | some msg => [LoopAction.appendLog msg, LoopAction.publish msg]
    | none => []
  | _ => []

/-- The full effect trace of the listener over a feed. -/
def listenerTrace : List PostgresChangesPayload → List LoopAction
  | [] => []
  | p :: rest => payloadActions p ++ listenerTrace rest

/-- The shared log after executing a trace from initial log `log`. -/
def execLog : List LoopAction → List Message → List Message
  | [], log => log
  | LoopAction.appendLog m :: rest, log => execLog rest (appendMessage log m)
  | LoopAction.publish _ :: rest, log => execLog rest log

/-! ## Index page (`index_handler`, main.rs 194-314) -/

/-- One rendered message (main.rs line 199):
`format!("<div class='message'>{}</div>", msg.text)` — the text is
interpolated verbatim, with no HTML escaping. `\x27` is the apostrophe
character. -/
def renderMessage (msg : Message) : String :=
  "<div class=\x27message\x27>" ++ msg.text ++ "</div>"

/-- `messages_html` (main.rs lines 197-200): the concatenation of the
rendered messages. -/
def messagesHtml (messages : List Message) : String :=
  String.join (messages.map renderMessage)

/-- The page template before the `{messages_html}` interpolation point
(main.rs lines 203-263; in the strings, `\x7b`/`\x7d` are the brace
characters — written `{{`/`}}` in the Rust format string — and `\x27`
is the apostrophe). -/
def pageHead : String := String.intercalate "\n" [
  "<!DOCTYPE html>",
  "<html>",
  "<head>",
  "    <meta charset=\"UTF-8\">",
  "    <title>Realtime Chat Demo</title>",
  "    <style>",
  "        body \x7b",
  "            font-family: system-ui, -apple-system, sans-serif;",
  "            max-width: 600px;",
  "            margin: 40px auto;",
  "            padding: 20px;",
  "            background: #f5f5f5;",
  "        \x7d",
  "        h1 \x7b",
  "            color: #333;",
  "            text-align: center;",
  "        \x7d",
  "        #messages \x7b",
  "            background: white;",
  "            border-radius: 8px;",
  "            padding: 20px;",
  "            min-height: 300px;",
  "            max-height: 500px;",
  "            overflow-y: auto;",
  "            margin-bottom: 20px;",
  "            box-shadow: 0 2px 4px rgba(0,0,0,0.1);",
  "        \x7d",
  "        .message \x7b",
  "            padding: 10px;",
  "            margin: 8px 0;",
  "            background: #f0f0f0;",
  "            border-radius: 4px;",
  "        \x7d",
  "        form \x7b",
  "            display: flex;",
  "            gap: 10px;",
  "        \x7d",
  "        input[type=\"text\"] \x7b",
  "            flex: 1;",
  "            padding: 12px;",
  "            border: 1px solid #ddd;",
  "            border-radius: 4px;",
  "            font-size: 16px;",
  "        \x7d",
  "        button \x7b",
  "            padding: 12px 24px;",
  "            background: #3b82f6;",
  "            color: white;",
  "            border: none;",
  "            border-radius: 4px;",
  "            cursor: pointer;",
  "            font-size: 16px;",
  "        \x7d",
  "        button:hover \x7b",
  "            background: #2563eb;",
  "        \x7d",
  "    </style>",
  "</head>",
  "<body>",
  "    <h1>🦀 Realtime Chat Demo</h1>",
  "    <div id=\"messages\">"]

/-- The page template after the `{messages_html}` interpolation point
(main.rs lines 263-311). -/
def pageTail : String := String.intercalate "\n" [
  "</div>",
  "    <form method=\"POST\" action=\"/messages\">",
  "        <input type=\"text\" name=\"text\" placeholder=\"Type a message...\" required autofocus>",
  "        <button type=\"submit\">Send</button>",
  "    </form>",
  "",
  "    <script>",
  "        // Connect to Server-Sent Events for live updates",
  "        const evtSource = new EventSource(\x27/events\x27);",
  "",
  "        evtSource.addEventListener(\x27message\x27, function(event) \x7b",
  "            const messagesDiv = document.getElementById(\x27messages\x27);",
  "            const messageDiv = document.createElement(\x27div\x27);",
  "            messageDiv.className = \x27message\x27;",
  "            messageDiv.textContent = event.data;",
  "            messagesDiv.appendChild(messageDiv);",
  "            messagesDiv.scrollTop = messagesDiv.scrollHeight;",
  "        \x7d);",
  "",
  "        evtSource.onerror = function() \x7b",
  "            console.error(\x27EventSource failed, reconnecting...\x27);",
  "        \x7d;",
  "",
  "        // Handle form submission via JavaScript to avoid page reload",
  "        const form = document.querySelector(\x27form\x27);",
  "        const input = document.querySelector(\x27input[name=\"text\"]\x27);",
  "",
  "        form.addEventListener(\x27submit\x27, async function(e) \x7b",
  "            e.preventDefault();",
  "",
  "            const text = input.value.trim();",
  "            if (!text) return;",
  "",
  "            // Submit the form data",
  "            await fetch(\x27/messages\x27, \x7b",
  "                method: \x27POST\x27,",
  "                headers: \x7b",
  "                    \x27Content-Type\x27: \x27application/x-www-form-urlencoded\x27,",
  "                \x7d,",
  "                body: \x27text=\x27 + encodeURIComponent(text)",
  "            \x7d);",
  "",
  "            // Clear the input field",
  "            input.value = \x27\x27;",
  "            input.focus();",
  "        \x7d);",
  "    </script>",
  "</body>",
  "</html>"]

/-- `index_handler` (main.rs lines 194-314): reads the shared log and
returns the page with `messages_html` interpolated into the template. -/
def index_handler (messages : List Message) : String :=
  pageHead ++ messagesHtml messages ++ pageTail

/-! ## Concrete inputs used by counterexamples and witnesses -/

/-- A concrete message with id 1. -/
def mA : Message := ⟨1, "hi", "2024-01-01"⟩

/-- A concrete message with id 2. -/
def mB : Message := ⟨2, "there", "2024-01-02"⟩

/-- A concrete message with id 3. -/
def mC : Message := ⟨3, "again", "2024-01-03"⟩

/-- A concrete message whose text is HTML markup. -/
def msgScript : Message := ⟨7, "<script>alert(1)</script>", "2024-01-07"⟩

/-- A well-formed raw row for `mA`. -/
def rawA : RawRow := ⟨some 1, some "hi", some "2024-01-01"⟩

/-- A well-formed raw row for `mB`. -/
def rawB : RawRow := ⟨some 2, some "there", some "2024-01-02"⟩

/-- A malformed raw row: the `text` field is missing. -/
def rawNoText : RawRow := ⟨some 5, none, some "2024-01-05"⟩

/-- An insert notification carrying `mA` (id 1). -/
def pIns1 : PostgresChangesPayload := .insert rawA

/-- An insert notification carrying `mB` (id 2). -/
def pIns2 : PostgresChangesPayload := .insert rawB

/-- The empty ingestion state (log bootstrapped empty). -/
def initState : IngestState := ⟨[], []⟩

/-- Three published messages, for the lag scenario with capacity 2. -/
def sent3 : List Message := [mA, mB, mC]
/-- Characterization of the listener: the log grows by exactly the
successfully deserialized insert payloads, in arrival order. -/
theorem listener_log_eq (s : IngestState) (feed : List PostgresChangesPayload) :
    (start_realtime_listener s feed).log = s.log ++ ingestedMessages feed := by
  induction feed generalizing s with
  | nil => simp [start_realtime_listener, ingestedMessages]
  | cons p rest ih =>
    simp only [start_realtime_listener, List.foldl_cons, ingestedMessages, List.filterMap_cons]
    match p with
    | .insert raw =>
      cases h : deserializeMessage raw with
      | none =>
        have := ih (processPayload s (.insert raw))
        simpa [start_realtime_listener, ingestedMessages, processPayload, h] using this
      | some msg =>
        have := ih (processPayload s (.insert raw))
        simpa [start_realtime_listener, ingestedMessages, processPayload, h,
          appendMessage] using this
    | .update n o =>
      have := ih (processPayload s (.update n o))
      simpa [start_realtime_listener, ingestedMessages, processPayload] using this
    | .delete o =>
      have := ih (processPayload s (.delete o))
      simpa [start_realtime_listener, ingestedMessages, processPayload] using this

/-- The published sequence grows the same way. -/
theorem listener_published_eq (s : IngestState) (feed : List PostgresChangesPayload) :
    (start_realtime_listener s feed).published = s.published ++ ingestedMessages feed := by
  induction feed generalizing s with
  | nil => simp [start_realtime_listener, ingestedMessages]
  | cons p rest ih =>
    simp only [start_realtime_listener, List.foldl_cons, ingestedMessages, List.filterMap_cons]
    match p with
    | .insert raw =>
      cases h : deserializeMessage raw with
      | none =>
        have := ih (processPayload s (.insert raw))
        simpa [start_realtime_listener, ingestedMessages, processPayload, h] using this
      | some msg =>
        have := ih (processPayload s (.insert raw))
        simpa [start_realtime_listener, ingestedMessages, processPayload, h] using this
    | .update n o =>
      have := ih (processPayload s (.update n o))
      simpa [start_realtime_listener, ingestedMessages, processPayload] using this
    | .delete o =>
      have := ih (processPayload s (.delete o))
      simpa [start_realtime_listener, ingestedMessages, processPayload] using this

/-- Folding string concatenation distributes over a prepended string. -/
theorem foldl_append_str (l : List String) : ∀ x y : String,
    List.foldl (fun r s => r ++ s) (x ++ y) l = x ++ List.foldl (fun r s => r ++ s) y l := by
  induction l with
  | nil => intro x y; simp
  | cons b t ih => intro x y; simp only [List.foldl_cons, String.append_assoc, ih]

/-- `String.join` unfolds one element at a time. -/
theorem string_join_cons (a : String) (l : List String) :
    String.join (a :: l) = a ++ String.join l := by
  have := foldl_append_str l a ""
  simpa [String.join] using this

/-- Any message of the log appears verbatim inside `messages_html`. -/
theorem messagesHtml_split (m : Message) :
    ∀ messages : List Message, m ∈ messages →
      ∃ pre post : String, messagesHtml messages = pre ++ m.text ++ post := by
  intro messages hm
  induction messages with
  | nil => cases hm
  | cons a t ih =>
    have hcons : messagesHtml (a :: t) = renderMessage a ++ messagesHtml t := by
      simp [messagesHtml, List.map_cons, string_join_cons]
    rcases List.mem_cons.mp hm with h | h
    · subst h
      refine ⟨"<div class=\x27message\x27>", "</div>" ++ messagesHtml t, ?_⟩
      rw [hcons]
      simp [renderMessage, String.append_assoc]
    · obtain ⟨pre, post, hsplit⟩ := ih h
      refine ⟨renderMessage a ++ pre, post, ?_⟩
      rw [hcons, hsplit]
      simp [String.append_assoc]

/-- When the pending queue fits in the capacity, the drain returns the
pending messages as data events, in order. -/
theorem drainAux_no_lag (C : Nat) (sent : List Message) :
    ∀ fuel pos, sent.length - pos ≤ C → sent.length - pos ≤ fuel →
      drainAux fuel C sent pos =
        (sent.drop pos).map (fun m => CodeItem.data m.text) := by
  intro fuel
  induction fuel with
  | zero =>
    intro pos _ hfuel
    have : sent.length ≤ pos := by omega
    simp [drainAux, List.drop_eq_nil_of_le this]
  | succ fuel ih =>
    intro pos hC hfuel
    by_cases hpos : pos < sent.length
    · have hstep : sent.length - (pos + 1) ≤ C := by omega
      have hstepf : sent.length - (pos + 1) ≤ fuel := by omega
      rw [drainAux, dif_pos hpos, if_pos hC, ih (pos + 1) hstep hstepf,
        List.drop_eq_getElem_cons hpos, List.map_cons]
      rfl
    · have : sent.length ≤ pos := by omega
      simp [drainAux, hpos, List.drop_eq_nil_of_le this]

/-- A message already in the log stays in it while a trace executes. -/
theorem execLog_mem_mono (m : Message) :
    ∀ (t : List LoopAction) (log : List Message), m ∈ log → m ∈ execLog t log := by
  intro t
  induction t with
  | nil => intro log h; simpa [execLog] using h
  | cons a rest ih =>
    intro log h
    match a with
    | .appendLog x =>
      exact ih (appendMessage log x) (by simp [appendMessage, h])
    | .publish x => exact ih log h

/-- An `appendLog m` action anywhere in a trace puts `m` in the log. -/
theorem execLog_mem_of_append (m : Message) :
    ∀ (t : List LoopAction) (log : List Message),
      LoopAction.appendLog m ∈ t → m ∈ execLog t log := by
  intro t
  induction t with
  | nil => intro log h; cases h
  | cons a rest ih =>
    intro log h
    have hsplit := List.mem_cons.mp h
    clear h
    rcases hsplit with h1 | h1
    · subst h1
      exact execLog_mem_mono m rest (appendMessage log m) (by simp [appendMessage])
    · match a with
      | .appendLog x => exact ih (appendMessage log x) h1
      | .publish x => exact ih log h1

/-- In every prefix of the listener's effect trace, a published message
was appended earlier in that same prefix: the push at main.rs line 181
precedes the send at line 184. -/
theorem trace_publish_after_append (m : Message) :
    ∀ (ps : List PostgresChangesPayload) (t₁ t₂ : List LoopAction),
      listenerTrace ps = t₁ ++ t₂ → LoopAction.publish m ∈ t₁ →
        LoopAction.appendLog m ∈ t₁ := by
  intro ps
  induction ps with
  | nil =>
    intro t₁ t₂ hsplit hpub
    rw [listenerTrace] at hsplit
    rcases List.append_eq_nil.mp hsplit.symm with ⟨h1, _⟩
    subst h1; cases hpub
  | cons p rest ih =>
    intro t₁ t₂ hsplit hpub
    rw [listenerTrace] at hsplit
    match p with
    | .update n o =>
      rw [show payloadActions (.update n o) = [] from rfl, List.nil_append] at hsplit
      exact ih t₁ t₂ hsplit hpub
    | .delete o =>
      rw [show payloadActions (.delete o) = [] from rfl, List.nil_append] at hsplit
      exact ih t₁ t₂ hsplit hpub
    | .insert raw =>
      cases hd : deserializeMessage raw with
      | none =>
        rw [show payloadActions (.insert raw) = [] from by simp [payloadActions, hd],
          List.nil_append] at hsplit
        exact ih t₁ t₂ hsplit hpub
      | some msg =>
        rw [show payloadActions (.insert raw) =
            [LoopAction.appendLog msg, LoopAction.publish msg] from
          by simp [payloadActions, hd]] at hsplit
        match t₁ with
        | [] => cases hpub
        | [x] =>
          simp only [List.singleton_append, List.cons_append, List.nil_append,
            List.cons.injEq] at hsplit
          have h := List.mem_singleton.mp hpub
          rw [← hsplit.1] at h
          injection h
        | x :: y :: t₁' =>
          simp only [List.cons_append, List.nil_append, List.cons.injEq] at hsplit
          obtain ⟨hx, hy, hrest⟩ := hsplit
          subst hx; subst hy
          rcases List.mem_cons.mp hpub with h | h
          · injection h
          · rcases List.mem_cons.mp h with h | h
            · have hm : m = msg := by injection h
              subst hm
              exact List.mem_cons_self _ _
            · have := ih t₁' t₂ hrest h
              exact List.mem_cons_of_mem _ (List.mem_cons_of_mem _ this)

/-! ## Claims -/

/-- C1 counterexample: appending the same event twice leaves two copies
in the log, not one — the push at main.rs line 181 has no duplicate-id
guard (and no boolean return at all). -/
theorem c1_counterexample :
    (appendMessage (appendMessage [] mA) mA).count mA = 2 ∧
    (appendMessage (appendMessage [] mA) mA).count mA ≠ 1 := by
  constructor <;> decide

/-- C1 (amended): append to the shared log is an unconditional
`Vec::push` with no idempotence guard: appending `e` twice always adds
two more copies of `e`, whatever the log already contains. -/
theorem c1_append_not_idempotent (log : List Message) (e : Message) :
    (appendMessage (appendMessage log e) e).count e = log.count e + 2 := by
  simp only [appendMessage, List.count_append]
  simp [List.count_cons]

/-- C2 counterexample: with capacity 2 and 3 events published before
any read, the subscriber's stream starts with the `"keepalive"` SSE
comment — which reads as a Keepalive, not as a distinguished `Gap`
marker — so the claimed observation `Gap` followed by the two newest
events is not what the code produces. -/
theorem c2_counterexample :
    specView (drain 2 sent3) =
      [SpecItem.keepalive, SpecItem.data "there", SpecItem.data "again"] ∧
    specView (drain 2 sent3) ≠
      [SpecItem.gap, SpecItem.data "there", SpecItem.data "again"] := by
  constructor <;> decide

/-- C2 (amended): with queue capacity `C ≥ 1`, if `C+k` events
(`k ≥ 1`) are published before the subscriber reads any, it observes
exactly one `"keepalive"` comment — the code's lag signal, textually
identical to its periodic keep-alive rather than a distinguished `Gap`
marker — followed by data events for the most recent `C` events (the
oldest `k` are dropped); the subscriber is not disconnected (the lag
error yields an item and the stream goes on). -/
theorem c2_lag_then_most_recent (C k : Nat) (sent : List Message)
    (hC : 1 ≤ C) (hk : 1 ≤ k) (hlen : sent.length = C + k) :
    drain C sent =
      keepaliveComment :: (sent.drop k).map (fun m => CodeItem.data m.text) := by
  have hpos : 0 < sent.length := by omega
  have hlag : ¬ (sent.length - 0 ≤ C) := by omega
  have h1 : drain C sent =
      keepaliveComment :: drainAux sent.length C sent (sent.length - C) := by
    rw [drain, drainAux, dif_pos hpos, if_neg hlag]
  have h2 : drainAux sent.length C sent (sent.length - C) =
      (sent.drop (sent.length - C)).map (fun m => CodeItem.data m.text) :=
    drainAux_no_lag C sent sent.length (sent.length - C) (by omega) (by omega)
  have hk2 : sent.length - C = k := by omega
  rw [h1, h2, hk2]

/-- C2 witness: capacity 2, three events published, none read. -/
theorem c2_witness :
    drain 2 sent3 =
      keepaliveComment :: (sent3.drop 1).map (fun m => CodeItem.data m.text) :=
  c2_lag_then_most_recent 2 1 sent3 (by decide) (by decide) (by decide)

/-- C3 counterexample: delivering ids 2 then 1 leaves the log in
arrival order `[2, 1]` — the lower id is pushed at the end, and the
snapshot is not sorted ascending by id. -/
theorem c3_counterexample :
    (start_realtime_listener initState [pIns2, pIns1]).log.map Message.id = [2, 1] ∧
    ¬ List.Sorted (fun a b => a < b)
        ((start_realtime_listener initState [pIns2, pIns1]).log.map Message.id) := by
  constructor <;> decide

/-- C3 (amended): the shared log keeps events in arrival order, not id
order: every successfully ingested event is pushed at the end (even
when its id is lower than the current maximum), so a snapshot returns
exactly the successfully deserialized insert notifications in the
order they arrived. -/
theorem c3_arrival_order (feed : List PostgresChangesPayload) :
    (start_realtime_listener initState feed).log = ingestedMessages feed := by
  simpa [initState] using listener_log_eq initState feed

/-- C4: in every prefix of the ingestion loop's effect trace, a message
that has been broadcast was already pushed onto the shared log (the
push at main.rs line 181 precedes the send at line 184), so no
subscriber can observe an event from the live tail that a snapshot of
the log taken at the same point would not contain. -/
theorem c4_append_before_publish (ps : List PostgresChangesPayload)
    (t₁ t₂ : List LoopAction) (m : Message) (log0 : List Message)
    (hsplit : listenerTrace ps = t₁ ++ t₂)
    (hpub : LoopAction.publish m ∈ t₁) :
    m ∈ execLog t₁ log0 :=
  execLog_mem_of_append m t₁ log0 (trace_publish_after_append m ps t₁ t₂ hsplit hpub)

/-- C4 witness: the trace of one successful insert, split after both
its actions. -/
theorem c4_witness :
    listenerTrace [pIns1] = [LoopAction.appendLog mA, LoopAction.publish mA] ++ [] ∧
    LoopAction.publish mA ∈ [LoopAction.appendLog mA, LoopAction.publish mA] ∧
    mA ∈ execLog [LoopAction.appendLog mA, LoopAction.publish mA] [] :=
  ⟨by decide, by decide,
    c4_append_before_publish [pIns1] [LoopAction.appendLog mA, LoopAction.publish mA] []
      mA [] (by decide) (by decide)⟩

/-- C5: a change notification that fails deserialization is dropped:
the loop's `continue` leaves the state (log and published sequence)
unchanged, and the rest of the feed is processed exactly as if the bad
notification had never arrived — ingestion goes on. -/
theorem c5_malformed_dropped (s : IngestState) (raw : RawRow)
    (ps : List PostgresChangesPayload) (h : deserializeMessage raw = none) :
    processPayload s (PostgresChangesPayload.insert raw) = s ∧
    start_realtime_listener s (PostgresChangesPayload.insert raw :: ps) =
      start_realtime_listener s ps := by
  have h1 : processPayload s (PostgresChangesPayload.insert raw) = s := by
    simp [processPayload, h]
  refine ⟨h1, ?_⟩
  simp only [start_realtime_listener, List.foldl_cons, h1]

/-- C5 witness: a notification missing the `text` field, followed by a
valid notification. -/
theorem c5_witness :
    deserializeMessage rawNoText = none ∧
    (processPayload initState (PostgresChangesPayload.insert rawNoText) = initState ∧
      start_realtime_listener initState
          (PostgresChangesPayload.insert rawNoText :: [pIns1]) =
        start_realtime_listener initState [pIns1]) :=
  ⟨by decide, c5_malformed_dropped initState rawNoText [pIns1] (by decide)⟩

/-- C6 counterexample: the listener is spawned once and never
restarted: after the first feed connection ends, a second connection's
valid notification (id 2) is never ingested — the log stays `[mA]`. -/
theorem c6_counterexample :
    (main_ingestion [[pIns1], [pIns2]] initState).log = [mA] ∧
    mB ∉ (main_ingestion [[pIns1], [pIns2]] initState).log := by
  constructor <;> decide

/-- C6 (amended): a feed disconnect or error terminates ingestion
rather than being retried: `main` spawns the listener once with no
reconnect loop or backoff, so only the first connection's
notifications are ever ingested, whatever any later connection would
deliver. -/
theorem c6_no_reconnect (s : IngestState) (first : List PostgresChangesPayload)
    (rest : List (List PostgresChangesPayload)) :
    (main_ingestion (first :: rest) s).log = s.log ++ ingestedMessages first := by
  simpa [main_ingestion] using listener_log_eq s first

/-- C7 counterexample: when the INSERT fails, `submit_message` still
returns 204 No Content — a success-class status — not a failure
response (its no-retry and no-log-mutation parts do hold). -/
theorem c7_counterexample :
    submit_message (fun _ => InsertResult.err "connection refused") "hi" [mA] =
      { status := 204, log := [mA], insertsIssued := ["hi"] } ∧
    isSuccessStatus 204 = true := by
  constructor <;> decide

/-- C7 (amended): on insert failure the handler logs the error and
still responds 204 No Content — a success status, so the failure is
not visible to the caller — while issuing exactly one INSERT (no
retry) and leaving the shared log untouched. -/
theorem c7_insert_failure_still_204 (db : String → InsertResult) (t e : String)
    (log : List Message) (h : db t = InsertResult.err e) :
    submit_message db t log = { status := 204, log := log, insertsIssued := [t] } ∧
    isSuccessStatus (submit_message db t log).status = true := by
  have h1 : submit_message db t log =
      { status := 204, log := log, insertsIssued := [t] } := by
    simp [submit_message, h]
  exact ⟨h1, by rw [h1]; rfl⟩

/-- C7 witness: a concrete failing database insert. -/
theorem c7_witness :
    (fun _ : String => InsertResult.err "boom") "hi" = InsertResult.err "boom" ∧
    (submit_message (fun _ => InsertResult.err "boom") "hi" [] =
        { status := 204, log := [], insertsIssued := ["hi"] } ∧
      isSuccessStatus (submit_message (fun _ => InsertResult.err "boom") "hi" []).status =
        true) :=
  ⟨rfl, c7_insert_failure_still_204 (fun _ => InsertResult.err "boom") "hi" "boom" [] rfl⟩

/-- C8 counterexample: the server neither trims nor rejects: text
`"  hi  "` is inserted verbatim (not its trimmed form `"hi"`), and the
whitespace-only text `"   "` — empty after trimming — still causes an
INSERT instead of being rejected. -/
theorem c8_counterexample :
    (submit_message (fun _ => InsertResult.ok 1) "  hi  " []).insertsIssued = ["  hi  "] ∧
    "  hi  " ≠ "hi" ∧
    (submit_message (fun _ => InsertResult.ok 1) "   " []).insertsIssued ≠ [] := by
  refine ⟨rfl, by decide, by decide⟩

/-- C8 (amended): the write path passes the submitted text to the
INSERT verbatim — no trimming and no non-emptiness validation happen
server-side (both exist only client-side, in the page's HTML
`required` attribute and JS `trim()`), and the shared log is never
touched. -/
theorem c8_no_server_side_validation (db : String → InsertResult) (t : String)
    (log : List Message) :
    (submit_message db t log).insertsIssued = [t] ∧
    (submit_message db t log).log = log := by
  cases h : db t <;> simp [submit_message, h]

/-- C9: a change payload that is not an `Insert` (an `Update` or
`Delete`) falls into the loop's `_ => {}` arm: the log and the
published sequence are exactly as before. -/
theorem c9_non_insert_ignored (s : IngestState) (p : PostgresChangesPayload)
    (h : p.isInsert = false) : processPayload s p = s := by
  match p with
  | .insert raw => simp [PostgresChangesPayload.isInsert] at h
  | .update n o => rfl
  | .delete o => rfl

/-- C9 witness: a delete notification leaves the state unchanged. -/
theorem c9_witness :
    (PostgresChangesPayload.delete rawA).isInsert = false ∧
    processPayload initState (PostgresChangesPayload.delete rawA) = initState :=
  ⟨rfl, c9_non_insert_ignored initState (PostgresChangesPayload.delete rawA) rfl⟩

/-- C10: the index page embeds each logged message's text verbatim,
with no HTML escaping: for every message in the log, the rendered page
contains the raw text — markup included — as a contiguous substring. -/
theorem c10_text_embedded_unescaped (messages : List Message) (m : Message)
    (hm : m ∈ messages) :
    ∃ pre post : String, index_handler messages = pre ++ m.text ++ post := by
  obtain ⟨pre, post, hsplit⟩ := messagesHtml_split m messages hm
  refine ⟨pageHead ++ pre, post ++ pageTail, ?_⟩
  rw [index_handler, hsplit]
  simp [String.append_assoc]

/-- C10 witness: a message whose text is a script tag appears verbatim
in the rendered page. -/
theorem c10_witness :
    msgScript ∈ [msgScript] ∧
    ∃ pre post : String, index_handler [msgScript] = pre ++ msgScript.text ++ post :=
  ⟨by decide, c10_text_embedded_unescaped [msgScript] msgScript (by decide)⟩
